import Mathlib

/-
Verification of the resume-bot-deploy orchestration scripts and CDK stacks.

The embedding models:
  * the artifact resolver of `deploy.sh` (lines 100-125): picking the newest
    ECR image's first non-"latest" tag;
  * the ECR image URI construction of `deploy.sh` (line 118) and its parsing
    in the backend stack (`lastIndexOf(':')` splitting, `tagOrDigest`);
  * the backend stack constructor's environment validation and its
    `apiEndpoint` value;
  * the frontend stack constructor's DOMAIN_NAME validation;
  * the `deploy.sh` run as a trace of issued operations under `set -e`;
  * the undeploy script's destroy sequence;
  * the `bootstrap-regions.sh` script;
  * the CDK app entrypoint's stack instantiations and their regions.
-/

namespace ResumeBot

/-! ## Artifact resolver (deploy.sh lines 100-125) -/

/-- One image of the ECR repository listing, as returned by
`aws ecr describe-images`: its push timestamp and its tags. -/
structure Image where
  pushedAt : Nat
  tags : List String
deriving Repr, DecidableEq

/-- The value of `sort_by(imageDetails,&imagePushedAt)[-1]`: the last element of the
ascending stable sort by push time, i.e. the last-listed image among those
with the maximal push timestamp; `none` on an empty repository. -/
def newestImage (imgs : List Image) : Option Image :=
  imgs.foldl
    (fun acc i =>
      match acc with
      | none => some i
      | some a => if a.pushedAt ≤ i.pushedAt then some i else some a)
    none

/-- The word list held by the shell variable `ALL_TAGS`: the newest image's
tags, or the single word "None" (the text rendering of a null query result)
when the repository is empty. -/
def scriptAllTags (imgs : List Image) : List String :=
  match newestImage imgs with
  | none => ["None"]
  | some i => i.tags

/-- deploy.sh lines 109-115: loop over `ALL_TAGS`, keep the first tag that is
not "latest"; the variable stays empty if every tag is "latest". -/
def latestTagVar (imgs : List Image) : String :=
  ((scriptAllTags imgs).filter (fun t => t ≠ "latest")).headD ""

/-- Failure kinds of artifact resolution: an empty repository
(`LATEST_TAG` = "None") versus a newest image carrying only the floating
alias (`LATEST_TAG` empty). -/
inductive ResolveError
  | NotFound
  | NoDeployableTag
deriving Repr, DecidableEq

/-- deploy.sh lines 117-125: the guard
`[ "$LATEST_TAG" != "None" ] && [ ! -z "$LATEST_TAG" ]`; on success the
selected tag, otherwise the script aborts. -/
def resolveLatest (imgs : List Image) : Except ResolveError String :=
  let lt := latestTagVar imgs
  if lt = "None" then Except.error ResolveError.NotFound
  else if lt = "" then Except.error ResolveError.NoDeployableTag
  else Except.ok lt

/-- deploy.sh line 118: the fully-qualified image reference. -/
def ecrImageUri (account region tag : String) : String :=
  account ++ ".dkr.ecr." ++ region ++ ".amazonaws.com/resume-bot/backend-lambda:" ++ tag

/-! ## URI parsing in the backend stack (resume-bot-backend-stack.ts)

The constructor splits the injected URI at its last colon:
`lastIndexOf(':')`, `substring(0, lastColonIndex)`,
`substring(lastColonIndex + 1)`, then `tag || 'latest'`. -/

/-- JavaScript `String.lastIndexOf(':')`, on the character list:
the index of the last colon, or -1 when there is none. -/
def lastColonIndex : List Char → Int
  | [] => -1
  | c :: cs =>
    let r := lastColonIndex cs
    if r ≥ 0 then r + 1 else if c = ':' then 0 else -1

/-- The value `ecrImageUri.substring(lastColonIndex + 1)`: the tag component.
When there is no colon the whole string is returned, as in JavaScript
(`substring(-1 + 1) = substring(0)`). -/
def uriTag (uri : String) : String :=
  ⟨uri.data.drop (lastColonIndex uri.data + 1).toNat⟩

/-- The value `ecrImageUri.substring(0, lastColonIndex)`: registry plus repository.
When there is no colon this is the empty string (`substring(0, -1)` clamps). -/
def registryAndRepo (uri : String) : String :=
  ⟨uri.data.take (lastColonIndex uri.data).toNat⟩

/-- JavaScript `String.split(sep)` on a character list. -/
def splitOnChar (sep : Char) : List Char → List (List Char)
  | [] => [[]]
  | c :: cs =>
    match splitOnChar sep cs with
    | [] => if c = sep then [[], []] else [[c]]
    | w :: ws => if c = sep then [] :: w :: ws else (c :: w) :: ws

/-- JavaScript `Array.join(sep)` on character lists. -/
def joinChar (sep : Char) : List (List Char) → List Char
  | [] => []
  | [w] => w
  | w :: ws => w ++ sep :: joinChar sep ws

/-- The value `registryAndRepo.split('/').slice(1).join('/')`: the repository name. -/
def uriRepoName (uri : String) : String :=
  ⟨joinChar '/' ((splitOnChar '/' (registryAndRepo uri).data).drop 1)⟩

/-- The `tagOrDigest` value handed to `DockerImageCode.fromEcr`:
`tag || 'latest'` — the parsed tag, or "latest" when it is empty. -/
def tagOrDigest (uri : String) : String :=
  let t := uriTag uri
  if t = "" then "latest" else t

/-! ## Backend stack constructor (resume-bot-backend-stack.ts) -/

/-- Environment visible to the backend stack constructor. The `.env` file
read by `loadEnvFile` is abstracted as its parsed key-value list (`none`
when the file is missing); the two process environment variables the
constructor reads are carried explicitly. -/
structure BackendEnv where
  envFile : Option (List (String × String))
  ecrImageUri : Option String
  domainName : Option String
deriving DecidableEq

/-- The errors the backend stack constructor throws, in source order. -/
inductive CtorError
  | envFileMissing
  | missingEnvVar (name : String)
  | missingEcrImageUri
  | missingDomainName
deriving Repr, DecidableEq

/-- The required keys checked after loading the `.env` file. -/
def requiredEnvVars : List String :=
  ["OPENAI_API_KEY", "PINECONE_API_KEY", "LANGSMITH_API_KEY"]

/-- The `envVars[key]` lookup in the parsed `.env` map. -/
def getVar (vs : List (String × String)) (k : String) : Option String :=
  (vs.find? (fun p => p.1 == k)).map (fun p => p.2)

/-- JavaScript truthiness of an optional string: `undefined` and the empty
string are falsy. -/
def truthy : Option String → Bool
  | none => false
  | some s => s ≠ ""

/-- The first required key whose value is falsy (`if (!envVars[envVar])`). -/
def firstMissingRequired (vs : List (String × String)) : Option String :=
  requiredEnvVars.find? (fun k => !truthy (getVar vs k))

/-- Synthesis-time data produced by a successful backend stack constructor
run: the parsed repository name, the tag actually handed to
`DockerImageCode.fromEcr`, the API domain, and `this.apiEndpoint` (also the
value of the `APIEndpoint` stack output). -/
structure BackendOut where
  repoName : String
  tagUsed : String
  apiDomainName : String
  apiEndpoint : String
deriving Repr, DecidableEq

/-- The backend stack constructor: load `.env`, check required keys, check
`RESUME_BOT_ECR_IMAGE_URI`, parse the URI, check `DOMAIN_NAME`, and compute
the endpoint — throwing in that order, as the source does. -/
def backendCtor (e : BackendEnv) : Except CtorError BackendOut :=
  match e.envFile with
  | none => Except.error CtorError.envFileMissing
  | some vs =>
    match firstMissingRequired vs with
    | some k => Except.error (CtorError.missingEnvVar k)
    | none =>
      match e.ecrImageUri with
      | none => Except.error CtorError.missingEcrImageUri
      | some uri =>
        if uri = "" then Except.error CtorError.missingEcrImageUri
        else
          match e.domainName with
          | none => Except.error CtorError.missingDomainName
          | some d =>
            if d = "" then Except.error CtorError.missingDomainName
            else
              Except.ok
                { repoName := uriRepoName uri
                  tagUsed := tagOrDigest uri
                  apiDomainName := "api.resume." ++ d
                  apiEndpoint := "https://" ++ ("api.resume." ++ d) }

/-- The frontend stack constructor's environment validation
(resume-bot-frontend-stack.ts lines 44-47): it throws when `DOMAIN_NAME`
is falsy, and otherwise serves `resume.${hostedZoneName}`. -/
def frontendCtor (domainName : Option String) : Except CtorError String :=
  match domainName with
  | none => Except.error CtorError.missingDomainName
  | some d =>
    if d = "" then Except.error CtorError.missingDomainName
    else Except.ok ("resume." ++ d)

/-! ## The CDK app entrypoint (bin/resume-bot-deploy.ts) -/

/-- Stack names as in the repository. -/
def certName : String := "ResumeBotCertificateStack"

def backendName : String := "ResumeBotBackendStack"

def frontendName : String := "ResumeBotFrontendStack"

/-- The `env` props a stack instantiation receives in the app entrypoint. -/
structure StackProps where
  name : String
  account : Option String
  region : Option String
deriving Repr, DecidableEq

/-- The three stack instantiations of the app entrypoint, in source order:
the certificate stack's region is the literal "us-east-1", the backend and
frontend stacks take `process.env.CDK_DEFAULT_REGION`. -/
def appStackProps (cdkDefaultAccount cdkDefaultRegion : Option String) : List StackProps :=
  [ ⟨certName, cdkDefaultAccount, some "us-east-1"⟩,
    ⟨backendName, cdkDefaultAccount, cdkDefaultRegion⟩,
    ⟨frontendName, cdkDefaultAccount, cdkDefaultRegion⟩ ]

/-- Whether running the app entrypoint (as every `cdk deploy`/`cdk destroy`
does) synthesizes without throwing. The entrypoint constructs the
certificate, backend and frontend stacks in order, and any constructor
exception aborts synthesis. The certificate stack's source file
(`lib/certificate-stack.ts`) is not part of the repository snapshot, so its
constructor's outcome is carried as the abstract flag `certCtorOk`. -/
def appSynth (certCtorOk : Bool) (e : BackendEnv) : Bool :=
  certCtorOk && (backendCtor e).toBool && (frontendCtor e.domainName).toBool

/-! ## The deploy run (deploy.sh), as a trace of issued operations -/

/-- Operations issued by the scripts, in issue order. `deployCmd`/`destroyCmd`
record that a `cdk deploy`/`cdk destroy` command was invoked;
`deployCloud`/`destroyCloud` record that app synthesis succeeded and the
stack operation was actually issued to CloudFormation. -/
inductive Op
  | buildPush
  | describeImages
  | bootstrap (region : String)
  | deployCmd (stack : String)
  | deployCloud (stack : String)
  | fetchOutput (stack key : String)
  | frontendBuild (viteApiUrl : String)
  | destroyCmd (stack : String)
  | destroyCloud (stack : String)
deriving Repr, DecidableEq

/-- The trace of one `cdk deploy`/`cdk destroy` invocation: the command is
issued; the cloud operation follows only when synthesis succeeds. -/
def cdkOps (cmd cloud : String → Op) (synthOk : Bool) (stack : String) : List Op :=
  if synthOk then [cmd stack, cloud stack] else [cmd stack]

/-- Whether one `cdk deploy`/`cdk destroy` invocation exits successfully:
synthesis must succeed and the platform operation must succeed. -/
def cdkOk (synthOk platformOk : Bool) : Bool :=
  synthOk && platformOk

/-- The outside world a `deploy.sh` run interacts with: the outcome of the
image build-and-push, the ECR listing, the account/region configuration,
the environment seen by stack constructors, the certificate stack
constructor's outcome, the platform outcome of each stack deploy, the
`CertificateArn` output lookup (empty when missing), and the frontend build
outcome. -/
structure World where
  buildPushOk : Bool
  images : List Image
  account : String
  region : String
  envFile : Option (List (String × String))
  domainName : Option String
  certCtorOk : Bool
  certDeployOk : Bool
  certArn : String
  backendDeployOk : Bool
  frontendBuildOk : Bool
  frontendDeployOk : Bool
deriving DecidableEq

/-- The `BackendEnv` in effect during a `deploy.sh` run, after the script
has exported `RESUME_BOT_ECR_IMAGE_URI` for the resolved tag. -/
def deployEnv (w : World) (tag : String) : BackendEnv :=
  ⟨w.envFile, some (ecrImageUri w.account w.region tag), w.domainName⟩

/-- One `deploy.sh` run under `set -e`, from the build-and-push step on:
build and push, resolve the artifact, skip bootstrap (deploy.sh line 129
deliberately issues no bootstrap), deploy the certificate stack, fetch its
`CertificateArn` output, deploy the backend stack, check `DOMAIN_NAME`
(line 164), build the frontend with the static API URL (line 170), deploy
the frontend stack. The first failing step aborts the run. Synthesis is
deterministic in the environment, so its outcome is computed once. -/
def deployRun (w : World) : List Op × Bool :=
  if w.buildPushOk = false then ([Op.buildPush], false) else
  match resolveLatest w.images with
  | Except.error _ => ([Op.buildPush, Op.describeImages], false)
  | Except.ok tag =>
    let s := appSynth w.certCtorOk (deployEnv w tag)
    let t1 := [Op.buildPush, Op.describeImages] ++ cdkOps Op.deployCmd Op.deployCloud s certName
    if cdkOk s w.certDeployOk = false then (t1, false) else
    let t2 := t1 ++ [Op.fetchOutput certName "CertificateArn"]
    if w.certArn = "" then (t2, false) else
    let t3 := t2 ++ cdkOps Op.deployCmd Op.deployCloud s backendName
    if cdkOk s w.backendDeployOk = false then (t3, false) else
    match w.domainName with
    | none => (t3, false)
    | some d =>
      if d = "" then (t3, false) else
      let t4 := t3 ++ [Op.frontendBuild ("https://api.resume." ++ d)]
      if w.frontendBuildOk = false then (t4, false) else
      let t5 := t4 ++ cdkOps Op.deployCmd Op.deployCloud s frontendName
      (t5, cdkOk s w.frontendDeployOk)

/-- The stacks deployed to the cloud by a run, in order. -/
def deployedOrder (w : World) : List String :=
  (deployRun w).1.filterMap
    (fun o => match o with | Op.deployCloud s => some s | _ => none)

/-! ## The teardown run (the undeploy script) -/

/-- The dummy image reference the undeploy script exports before destroying
(`RESUME_BOT_ECR_IMAGE_URI` is required for CDK stack instantiation). -/
def dummyEcrUri : String :=
  "123456789012.dkr.ecr.ca-central-1.amazonaws.com/resume-bot/backend-lambda:dummy-for-destroy"

/-- The outside world a teardown run interacts with. -/
structure DestroyWorld where
  envFile : Option (List (String × String))
  domainName : Option String
  certCtorOk : Bool
  frontendDestroyOk : Bool
  backendDestroyOk : Bool
  certDestroyOk : Bool
deriving DecidableEq

/-- The `BackendEnv` in effect during a teardown run: the script has set the
dummy image reference. -/
def destroyEnv (w : DestroyWorld) : BackendEnv :=
  ⟨w.envFile, some dummyEcrUri, w.domainName⟩

/-- One undeploy-script run under `set -e`: destroy the frontend, backend
and certificate stacks in that (hard-coded) order, each `cdk destroy`
synthesizing the app first; the first failure aborts. -/
def destroyRun (w : DestroyWorld) : List Op × Bool :=
  let s := appSynth w.certCtorOk (destroyEnv w)
  let t1 := cdkOps Op.destroyCmd Op.destroyCloud s frontendName
  if cdkOk s w.frontendDestroyOk = false then (t1, false) else
  let t2 := t1 ++ cdkOps Op.destroyCmd Op.destroyCloud s backendName
  if cdkOk s w.backendDestroyOk = false then (t2, false) else
  let t3 := t2 ++ cdkOps Op.destroyCmd Op.destroyCloud s certName
  (t3, cdkOk s w.certDestroyOk)

/-- The stacks destroyed in the cloud by a teardown run, in order. -/
def destroyedOrder (w : DestroyWorld) : List String :=
  (destroyRun w).1.filterMap
    (fun o => match o with | Op.destroyCloud s => some s | _ => none)

/-! ## The bootstrap script (scripts/bootstrap-regions.sh) -/

/-- One run of `bootstrap-regions.sh`: bootstrap the default region, then
us-east-1, exiting non-zero as soon as one fails. -/
def bootstrapRun (defaultRegion : String) (okDefault okUsEast : Bool) : List Op × Bool :=
  if okDefault = false then ([Op.bootstrap defaultRegion], false)
  else ([Op.bootstrap defaultRegion, Op.bootstrap "us-east-1"], okUsEast)

/-- Recognizer for bootstrap operations in a trace. -/
def isBootstrapOp : Op → Bool
  | Op.bootstrap _ => true
  | _ => false

/-- Holds when `x` occurs strictly before `y` in the list `l`. -/
def occursBefore (x y : Op) (l : List Op) : Prop :=
  ∃ l₁ l₂ l₃, l = l₁ ++ x :: (l₂ ++ y :: l₃)

/-- deploy.sh line 170: the statically constructed backend API URL handed to
the frontend build as `VITE_API_URL`. -/
def apiUrlScript (domain : String) : String :=
  "https://api.resume." ++ domain

/-- Recognizer for cloud stack deploys in a trace. -/
def isDeployCloudOp : Op → Bool
  | Op.deployCloud _ => true
  | _ => false

/-- Recognizer for the deploy command of one particular stack. -/
def isDeployCmdFor (stack : String) : Op → Bool
  | Op.deployCmd n => n == stack
  | _ => false

/-! ## Concrete worlds used to instantiate the theorems -/

/-- A parsed `.env` file carrying all required keys. -/
def envOkVars : List (String × String) :=
  [("OPENAI_API_KEY", "k1"), ("PINECONE_API_KEY", "k2"), ("LANGSMITH_API_KEY", "k3")]

/-- A repository listing whose newest push is tagged `["latest", "v3"]` over
an older image tagged `["v2"]`. -/
def goodImages : List Image :=
  [⟨1, ["v2"]⟩, ⟨2, ["latest", "v3"]⟩]

/-- A world in which every external step succeeds. -/
def wAllGood : World :=
  ⟨true, goodImages, "123456789012", "ca-central-1", some envOkVars,
    some "example.com", true, true, "arn:cert", true, true, true⟩

/-- The all-good world with `DOMAIN_NAME` absent. -/
def wNoDomain : World :=
  ⟨true, goodImages, "123456789012", "ca-central-1", some envOkVars,
    none, true, true, "arn:cert", true, true, true⟩

/-- The all-good world in which the certificate stack deploy fails. -/
def wCertFails : World :=
  ⟨true, goodImages, "123456789012", "ca-central-1", some envOkVars,
    some "example.com", true, false, "arn:cert", true, true, true⟩

/-- The all-good world in which the certificate and backend deploys fail. -/
def wBothFail : World :=
  ⟨true, goodImages, "123456789012", "ca-central-1", some envOkVars,
    some "example.com", true, false, "arn:cert", false, true, true⟩

/-- A teardown world in which every destroy succeeds. -/
def dwAllGood : DestroyWorld :=
  ⟨some envOkVars, some "example.com", true, true, true, true⟩

/-- The operation trace of a fully successful deploy run with domain `d`. -/
def fullDeployTrace (d : String) : List Op :=
  [Op.buildPush, Op.describeImages, Op.deployCmd certName, Op.deployCloud certName,
   Op.fetchOutput certName "CertificateArn", Op.deployCmd backendName, Op.deployCloud backendName,
   Op.frontendBuild ("https://api.resume." ++ d), Op.deployCmd frontendName,
   Op.deployCloud frontendName]

end ResumeBot

namespace ResumeBot

/-! ## Helper lemmas -/

theorem sdata_append (s t : String) : (s ++ t).data = s.data ++ t.data := by
  cases s; cases t; rfl

theorem lastColonIndex_of_not_mem {l : List Char} (h : ':' ∉ l) :
    lastColonIndex l = -1 := by
  induction l with
  | nil => rfl
  | cons c cs ih =>
    rw [List.mem_cons] at h
    push_neg at h
    simp [lastColonIndex, ih h.2, Ne.symm h.1]

theorem lastColonIndex_append (p q : List Char) (h : ':' ∉ q) :
    lastColonIndex (p ++ ':' :: q) = (p.length : Int) := by
  induction p with
  | nil => simp [lastColonIndex, lastColonIndex_of_not_mem h]
  | cons c p ih =>
    simp only [List.cons_append, lastColonIndex, List.append_eq]
    rw [ih]
    have h0 : (0 : Int) ≤ (p.length : Int) := Int.ofNat_nonneg _
    simp only [ge_iff_le, h0, if_true, List.length_cons]
    push_cast
    omega

theorem uriTag_of_data {uri : String} {p : List Char} {t : String}
    (hd : uri.data = p ++ ':' :: t.data) (h : ':' ∉ t.data) :
    uriTag uri = t := by
  unfold uriTag
  rw [hd, lastColonIndex_append p t.data h]
  have h1 : ((p.length : Int) + 1).toNat = p.length + 1 := by
    omega
  rw [h1, List.append_cons p ':' t.data]
  have h2 : (p ++ [':']).length = p.length + 1 := by simp
  rw [← h2, List.drop_left]

theorem ecrImageUri_data (a r t : String) :
    (ecrImageUri a r t).data =
      (a.data ++ (".dkr.ecr." : String).data ++ r.data ++
        (".amazonaws.com/resume-bot/backend-lambda" : String).data) ++ ':' :: t.data := by
  have hsplit : (".amazonaws.com/resume-bot/backend-lambda:" : String) =
      ".amazonaws.com/resume-bot/backend-lambda" ++ ":" := rfl
  simp only [ecrImageUri, hsplit, sdata_append, List.append_assoc]
  rfl

/-- A tag accepted by `resolveLatest` is non-empty and is not "latest". -/
theorem resolveLatest_ok_tag {imgs : List Image} {tag : String}
    (h : resolveLatest imgs = Except.ok tag) :
    tag ≠ "" ∧ tag ≠ "latest" := by
  simp only [resolveLatest] at h
  split_ifs at h with h1 h2
  have htag : latestTagVar imgs = tag := by
    injection h
  have hne : tag ≠ "" := by
    rw [← htag]; exact h2
  refine ⟨hne, ?_⟩
  unfold latestTagVar at htag
  cases hf : (scriptAllTags imgs).filter (fun t => t ≠ "latest") with
  | nil =>
    rw [hf] at htag
    exact absurd htag.symm hne
  | cons a as =>
    rw [hf] at htag
    simp at htag
    have ha : a ∈ (scriptAllTags imgs).filter (fun t => t ≠ "latest") := by
      rw [hf]; exact List.mem_cons_self a as
    have := List.of_mem_filter ha
    simp at this
    rw [← htag]
    exact this

/-- The frontend constructor succeeds exactly on truthy domain values. -/
theorem frontendCtor_toBool (dn : Option String) :
    (frontendCtor dn).toBool = truthy dn := by
  cases dn with
  | none => rfl
  | some d =>
    by_cases hd : d = "" <;> simp [frontendCtor, truthy, hd, Except.toBool]

/-- App synthesis fails whenever the domain value is not truthy. -/
theorem appSynth_of_domain_falsy (c : Bool) (ef : Option (List (String × String)))
    (uri : Option String) (dn : Option String) (h : truthy dn = false) :
    appSynth c ⟨ef, uri, dn⟩ = false := by
  simp [appSynth, frontendCtor_toBool, h]

/-- Every possible outcome of a `deploy.sh` run, with the guard facts of the
branch taken. The `DOMAIN_NAME` check of deploy.sh line 164 never fires on
its own: when synthesis succeeded, the domain was necessarily truthy. -/
theorem deployRun_shape (w : World) :
    (w.buildPushOk = false ∧ deployRun w = ([Op.buildPush], false)) ∨
    (∃ e, resolveLatest w.images = Except.error e ∧
      deployRun w = ([Op.buildPush, Op.describeImages], false)) ∨
    (∃ tag, resolveLatest w.images = Except.ok tag ∧
      appSynth w.certCtorOk (deployEnv w tag) = false ∧
      deployRun w = ([Op.buildPush, Op.describeImages, Op.deployCmd certName], false)) ∨
    (∃ tag, resolveLatest w.images = Except.ok tag ∧
      appSynth w.certCtorOk (deployEnv w tag) = true ∧ w.certDeployOk = false ∧
      deployRun w = ([Op.buildPush, Op.describeImages, Op.deployCmd certName,
        Op.deployCloud certName], false)) ∨
    (∃ tag, resolveLatest w.images = Except.ok tag ∧
      appSynth w.certCtorOk (deployEnv w tag) = true ∧ w.certDeployOk = true ∧
      w.certArn = "" ∧
      deployRun w = ([Op.buildPush, Op.describeImages, Op.deployCmd certName,
        Op.deployCloud certName, Op.fetchOutput certName "CertificateArn"], false)) ∨
    (∃ tag, resolveLatest w.images = Except.ok tag ∧
      appSynth w.certCtorOk (deployEnv w tag) = true ∧ w.certDeployOk = true ∧
      w.certArn ≠ "" ∧ w.backendDeployOk = false ∧
      deployRun w = ([Op.buildPush, Op.describeImages, Op.deployCmd certName,
        Op.deployCloud certName, Op.fetchOutput certName "CertificateArn",
        Op.deployCmd backendName, Op.deployCloud backendName], false)) ∨
    (∃ tag d, resolveLatest w.images = Except.ok tag ∧
      appSynth w.certCtorOk (deployEnv w tag) = true ∧ w.certDeployOk = true ∧
      w.certArn ≠ "" ∧ w.backendDeployOk = true ∧ w.domainName = some d ∧ d ≠ "" ∧
      w.frontendBuildOk = false ∧
      deployRun w = ([Op.buildPush, Op.describeImages, Op.deployCmd certName,
        Op.deployCloud certName, Op.fetchOutput certName "CertificateArn",
        Op.deployCmd backendName, Op.deployCloud backendName,
        Op.frontendBuild ("https://api.resume." ++ d)], false)) ∨
    (∃ tag d, resolveLatest w.images = Except.ok tag ∧
      appSynth w.certCtorOk (deployEnv w tag) = true ∧ w.certDeployOk = true ∧
      w.certArn ≠ "" ∧ w.backendDeployOk = true ∧ w.domainName = some d ∧ d ≠ "" ∧
      w.frontendBuildOk = true ∧
      deployRun w = (fullDeployTrace d, w.frontendDeployOk)) := by
  by_cases hb : w.buildPushOk = false
  · exact Or.inl ⟨hb, by simp [deployRun, hb]⟩
  · cases hr : resolveLatest w.images with
    | error e =>
      exact Or.inr (Or.inl ⟨e, rfl, by simp [deployRun, hb, hr]⟩)
    | ok tag =>
      cases hs : appSynth w.certCtorOk (deployEnv w tag) with
      | false =>
        refine Or.inr (Or.inr (Or.inl ⟨tag, rfl, hs, ?_⟩))
        simp [deployRun, hb, hr, hs, cdkOps, cdkOk]
      | true =>
        cases hcd : w.certDeployOk with
        | false =>
          refine Or.inr (Or.inr (Or.inr (Or.inl ⟨tag, rfl, hs, rfl, ?_⟩)))
          simp [deployRun, hb, hr, hs, hcd, cdkOps, cdkOk]
        | true =>
          by_cases hca : w.certArn = ""
          · refine Or.inr (Or.inr (Or.inr (Or.inr (Or.inl ⟨tag, rfl, hs, rfl, hca, ?_⟩))))
            simp [deployRun, hb, hr, hs, hcd, hca, cdkOps, cdkOk]
          · cases hbd : w.backendDeployOk with
            | false =>
              refine Or.inr (Or.inr (Or.inr (Or.inr (Or.inr
                (Or.inl ⟨tag, rfl, hs, rfl, hca, rfl, ?_⟩)))))
              simp [deployRun, hb, hr, hs, hcd, hca, hbd, cdkOps, cdkOk]
            | true =>
              cases hdn : w.domainName with
              | none =>
                exfalso
                have hfalse : appSynth w.certCtorOk (deployEnv w tag) = false := by
                  show appSynth w.certCtorOk
                    ⟨w.envFile, some (ecrImageUri w.account w.region tag), w.domainName⟩ = false
                  rw [hdn]
                  exact appSynth_of_domain_falsy _ _ _ _ rfl
                rw [hs] at hfalse
                simp at hfalse
              | some d =>
                by_cases hde : d = ""
                · exfalso
                  have hfalse : appSynth w.certCtorOk (deployEnv w tag) = false := by
                    show appSynth w.certCtorOk
                      ⟨w.envFile, some (ecrImageUri w.account w.region tag), w.domainName⟩ = false
                    rw [hdn, hde]
                    exact appSynth_of_domain_falsy _ _ _ _ (by simp [truthy])
                  rw [hs] at hfalse
                  simp at hfalse
                · by_cases hfb : w.frontendBuildOk = false
                  · refine Or.inr (Or.inr (Or.inr (Or.inr (Or.inr (Or.inr
                      (Or.inl ⟨tag, d, rfl, hs, rfl, hca, rfl, rfl, hde, hfb, ?_⟩))))))
                    simp [deployRun, hb, hr, hs, hcd, hca, hbd, hdn, hde, hfb, cdkOps, cdkOk]
                  · refine Or.inr (Or.inr (Or.inr (Or.inr (Or.inr (Or.inr (Or.inr
                      ⟨tag, d, rfl, hs, rfl, hca, rfl, rfl, hde,
                        (by simpa using hfb : w.frontendBuildOk = true), ?_⟩))))))
                    simp [deployRun, fullDeployTrace, hb, hr, hs, hcd, hca, hbd, hdn,
                      hde, hfb, cdkOps, cdkOk]

/-! ## Claims -/

/-- C1: Artifact resolution selects the image with the most recent push
timestamp and returns a non-floating tag of that image: for every repository
listing, if the newest image's tags are exactly ["latest"] resolution fails;
if the newest image is tagged ["latest", "v3"] and an older image is tagged
["v2"], resolution returns "v3"; and an empty repository fails with
NotFound. -/
theorem c1_artifact_resolution_latest :
    (∀ (imgs : List Image) (i : Image),
        newestImage imgs = some i → i.tags = ["latest"] →
        resolveLatest imgs = Except.error ResolveError.NoDeployableTag) ∧
    resolveLatest [⟨1, ["v2"]⟩, ⟨2, ["latest", "v3"]⟩] = Except.ok "v3" ∧
    resolveLatest [] = Except.error ResolveError.NotFound := by
  refine ⟨?_, rfl, rfl⟩
  intro imgs i hnew htags
  simp [resolveLatest, latestTagVar, scriptAllTags, hnew, htags]

/-- Witness for C1: instantiates the universally quantified part on a
one-image repository tagged only "latest". -/
theorem c1_artifact_resolution_latest_witness :
    newestImage [⟨5, ["latest"]⟩] = some ⟨5, ["latest"]⟩ ∧
    resolveLatest [⟨5, ["latest"]⟩] = Except.error ResolveError.NoDeployableTag :=
  ⟨rfl, c1_artifact_resolution_latest.1 [⟨5, ["latest"]⟩] ⟨5, ["latest"]⟩ rfl rfl⟩

/-- C3: For every artifact reference injected as the backend stack's image
parameter, the tag component is never the mutable floating alias "latest":
the resolver filters it out, and the backend stack's parsing of the injected
URI never yields "latest" as the tag actually used for deployment. (ECR/OCI
tags cannot contain a colon, which is the `hc` hypothesis.) -/
theorem c3_injected_tag_never_latest (imgs : List Image) (account region tag : String)
    (hres : resolveLatest imgs = Except.ok tag) (hc : ':' ∉ tag.data) :
    tag ≠ "latest" ∧
    tagOrDigest (ecrImageUri account region tag) = tag ∧
    tagOrDigest (ecrImageUri account region tag) ≠ "latest" := by
  obtain ⟨hne, hlat⟩ := resolveLatest_ok_tag hres
  have htag : uriTag (ecrImageUri account region tag) = tag :=
    uriTag_of_data (ecrImageUri_data account region tag) hc
  have htd : tagOrDigest (ecrImageUri account region tag) = tag := by
    simp [tagOrDigest, htag, hne]
  exact ⟨hlat, htd, by rw [htd]; exact hlat⟩

/-- Witness for C3: the resolver output "v3" for the two-image listing,
injected and re-parsed by the backend stack. -/
theorem c3_injected_tag_never_latest_witness :
    tagOrDigest (ecrImageUri "123456789012" "ca-central-1" "v3") = "v3" ∧
    tagOrDigest (ecrImageUri "123456789012" "ca-central-1" "v3") ≠ "latest" :=
  let h := c3_injected_tag_never_latest goodImages "123456789012" "ca-central-1" "v3"
    rfl (by decide)
  ⟨h.2.1, h.2.2⟩

/-- C7: The API URL handed to the frontend build, constructed statically as
"https://api.resume." concatenated with DOMAIN_NAME, equals the APIEndpoint
output value that the backend stack's deploy produces for the same
DOMAIN_NAME. -/
theorem c7_api_url_equals_backend_endpoint (ef : Option (List (String × String)))
    (eu : Option String) (d : String) (out : BackendOut)
    (h : backendCtor ⟨ef, eu, some d⟩ = Except.ok out) :
    out.apiEndpoint = apiUrlScript d := by
  have hassoc : "https://" ++ ("api.resume." ++ d) = "https://api.resume." ++ d := by
    cases d; rfl
  cases ef with
  | none => simp [backendCtor] at h
  | some vs =>
    cases hmr : firstMissingRequired vs with
    | some k => simp [backendCtor, hmr] at h
    | none =>
      cases eu with
      | none => simp [backendCtor, hmr] at h
      | some uri =>
        simp only [backendCtor, hmr] at h
        split_ifs at h with h1 h2
        injection h with h3
        subst h3
        simpa [apiUrlScript] using hassoc

/-- Witness for C7: a concrete backend environment with domain
"example.com". -/
theorem c7_api_url_equals_backend_endpoint_witness :
    (backendCtor ⟨some envOkVars, some "a:t", some "example.com"⟩).map
        (fun out => out.apiEndpoint) = Except.ok (apiUrlScript "example.com") := by
  have h : backendCtor ⟨some envOkVars, some "a:t", some "example.com"⟩ =
      Except.ok ⟨"", "t", "api.resume.example.com",
        "https://" ++ ("api.resume." ++ "example.com")⟩ := rfl
  rw [h]
  simp only [Except.map]
  exact congrArg Except.ok
    (c7_api_url_equals_backend_endpoint (some envOkVars) (some "a:t") "example.com" _ h)

/-- C9: The certificate stack is always instantiated with region fixed to
"us-east-1", independent of the value of CDK_DEFAULT_REGION, while the
backend and frontend stacks are placed in the default region; this holds for
every run of the app entrypoint. -/
theorem c9_certificate_region_fixed (acct region : Option String) :
    (appStackProps acct region).find? (fun p => p.name == certName) =
        some ⟨certName, acct, some "us-east-1"⟩ ∧
    (appStackProps acct region).find? (fun p => p.name == backendName) =
        some ⟨backendName, acct, region⟩ ∧
    (appStackProps acct region).find? (fun p => p.name == frontendName) =
        some ⟨frontendName, acct, region⟩ :=
  ⟨rfl, rfl, rfl⟩

/-- App synthesis during a deploy run fails when `DOMAIN_NAME` is unset. -/
theorem appSynth_deployEnv_none (w : World) (tag : String) (h : w.domainName = none) :
    appSynth w.certCtorOk (deployEnv w tag) = false := by
  show appSynth w.certCtorOk
    ⟨w.envFile, some (ecrImageUri w.account w.region tag), w.domainName⟩ = false
  rw [h]
  exact appSynth_of_domain_falsy _ _ _ _ rfl

/-- The backend stack constructor always throws when
`RESUME_BOT_ECR_IMAGE_URI` is unset. -/
theorem backendCtor_error_of_no_uri (ef : Option (List (String × String)))
    (dn : Option String) :
    ∃ err, backendCtor ⟨ef, none, dn⟩ = Except.error err := by
  cases ef with
  | none => exact ⟨CtorError.envFileMissing, rfl⟩
  | some vs =>
    cases hmr : firstMissingRequired vs with
    | some k => exact ⟨CtorError.missingEnvVar k, by simp [backendCtor, hmr]⟩
    | none => exact ⟨CtorError.missingEcrImageUri, by simp [backendCtor, hmr]⟩

/-- App synthesis fails when `RESUME_BOT_ECR_IMAGE_URI` is unset. -/
theorem appSynth_false_of_no_uri (c : Bool) (ef : Option (List (String × String)))
    (dn : Option String) :
    appSynth c ⟨ef, none, dn⟩ = false := by
  obtain ⟨err, herr⟩ := backendCtor_error_of_no_uri ef dn
  simp [appSynth, herr, Except.toBool]

/-- A successful deploy run deployed exactly the three stacks in order. -/
theorem deployRun_success_order (w : World) (h : (deployRun w).2 = true) :
    deployedOrder w = [certName, backendName, frontendName] := by
  rcases deployRun_shape w with
    ⟨hb, heq⟩ | ⟨e, hr, heq⟩ | ⟨tag, hr, hs, heq⟩ | ⟨tag, hr, hs, hcd, heq⟩ |
    ⟨tag, hr, hs, hcd, hca, heq⟩ | ⟨tag, hr, hs, hcd, hca, hbd, heq⟩ |
    ⟨tag, d, hr, hs, hcd, hca, hbd, hdn, hde, hfb, heq⟩ |
    ⟨tag, d, hr, hs, hcd, hca, hbd, hdn, hde, hfb, heq⟩ <;>
    rw [heq] at h <;> try simp at h
  rw [deployedOrder, heq]
  rw [h]
  simp [fullDeployTrace]

/-- A successful teardown run destroyed exactly the three stacks in reverse
order. -/
theorem destroyRun_success_order (dw : DestroyWorld) (h : (destroyRun dw).2 = true) :
    destroyedOrder dw = [frontendName, backendName, certName] := by
  cases hs : appSynth dw.certCtorOk (destroyEnv dw) with
  | false => simp [destroyRun, hs, cdkOps, cdkOk] at h
  | true =>
    cases hf : dw.frontendDestroyOk with
    | false => simp [destroyRun, hs, hf, cdkOps, cdkOk] at h
    | true =>
      cases hbk : dw.backendDestroyOk with
      | false => simp [destroyRun, hs, hf, hbk, cdkOps, cdkOk] at h
      | true => simp [destroyedOrder, destroyRun, hs, hf, hbk, cdkOps, cdkOk]

/-- C2: For the fixed three-stack plan, the deploy run issues stack deploys
in an order where every producer strictly precedes every consumer of its
outputs: the Frontend stack's deploy is never issued before both the
Certificate and Backend deploys have completed successfully. -/
theorem c2_frontend_deploy_after_producers (w : World)
    (h : Op.deployCloud frontendName ∈ (deployRun w).1) :
    w.certDeployOk = true ∧ w.backendDeployOk = true ∧
    occursBefore (Op.deployCloud certName) (Op.deployCloud frontendName) (deployRun w).1 ∧
    occursBefore (Op.deployCloud backendName) (Op.deployCloud frontendName) (deployRun w).1 := by
  rcases deployRun_shape w with
    ⟨hb, heq⟩ | ⟨e, hr, heq⟩ | ⟨tag, hr, hs, heq⟩ | ⟨tag, hr, hs, hcd, heq⟩ |
    ⟨tag, hr, hs, hcd, hca, heq⟩ | ⟨tag, hr, hs, hcd, hca, hbd, heq⟩ |
    ⟨tag, d, hr, hs, hcd, hca, hbd, hdn, hde, hfb, heq⟩ |
    ⟨tag, d, hr, hs, hcd, hca, hbd, hdn, hde, hfb, heq⟩ <;>
    rw [heq] at h <;>
    try simp [certName, backendName, frontendName] at h
  refine ⟨hcd, hbd, ?_, ?_⟩
  · rw [heq]
    exact ⟨[Op.buildPush, Op.describeImages, Op.deployCmd certName],
      [Op.fetchOutput certName "CertificateArn", Op.deployCmd backendName,
        Op.deployCloud backendName, Op.frontendBuild ("https://api.resume." ++ d),
        Op.deployCmd frontendName], [], rfl⟩
  · rw [heq]
    exact ⟨[Op.buildPush, Op.describeImages, Op.deployCmd certName, Op.deployCloud certName,
        Op.fetchOutput certName "CertificateArn", Op.deployCmd backendName],
      [Op.frontendBuild ("https://api.resume." ++ d), Op.deployCmd frontendName], [], rfl⟩

/-- Witness for C2: the all-good world, in which the frontend deploy is
issued. -/
theorem c2_frontend_deploy_after_producers_witness :
    wAllGood.certDeployOk = true ∧ wAllGood.backendDeployOk = true ∧
    occursBefore (Op.deployCloud certName) (Op.deployCloud frontendName)
      (deployRun wAllGood).1 ∧
    occursBefore (Op.deployCloud backendName) (Op.deployCloud frontendName)
      (deployRun wAllGood).1 :=
  c2_frontend_deploy_after_producers wAllGood (by decide)

/-- C4 counterexample: with DOMAIN_NAME absent but everything else in order,
the run does issue cloud operations — the image build/push and the registry
read — and attempts the certificate deploy command before failing, refuting
"fails before any cloud operation is issued". -/
theorem c4_counterexample_cloud_ops_before_failure :
    wNoDomain.domainName = none ∧
    deployRun wNoDomain = ([Op.buildPush, Op.describeImages, Op.deployCmd certName], false) ∧
    Op.buildPush ∈ (deployRun wNoDomain).1 ∧
    Op.deployCmd certName ∈ (deployRun wNoDomain).1 := by
  refine ⟨rfl, by decide, by decide, by decide⟩

/-- C4 (amended): If the DOMAIN_NAME configuration value is absent, the
deploy run fails, and no stack deploy is ever issued to the cloud platform —
the first `cdk deploy` already fails during app synthesis because the stack
constructors require DOMAIN_NAME — although the image build/push and the
registry read have been issued before the failure, and the certificate
deploy command is attempted. -/
theorem c4_missing_domain_no_stack_deploy (w : World) (h : w.domainName = none) :
    (deployRun w).2 = false ∧ (deployRun w).1.countP isDeployCloudOp = 0 := by
  rcases deployRun_shape w with
    ⟨hb, heq⟩ | ⟨e, hr, heq⟩ | ⟨tag, hr, hs, heq⟩ | ⟨tag, hr, hs, hcd, heq⟩ |
    ⟨tag, hr, hs, hcd, hca, heq⟩ | ⟨tag, hr, hs, hcd, hca, hbd, heq⟩ |
    ⟨tag, d, hr, hs, hcd, hca, hbd, hdn, hde, hfb, heq⟩ |
    ⟨tag, d, hr, hs, hcd, hca, hbd, hdn, hde, hfb, heq⟩
  · rw [heq]; exact ⟨rfl, by decide⟩
  · rw [heq]; exact ⟨rfl, by decide⟩
  · rw [heq]; exact ⟨rfl, by decide⟩
  all_goals rw [appSynth_deployEnv_none w tag h] at hs
  all_goals simp at hs

/-- Witness for C4 (amended): the concrete world with DOMAIN_NAME absent. -/
theorem c4_missing_domain_no_stack_deploy_witness :
    (deployRun wNoDomain).2 = false ∧
    (deployRun wNoDomain).1.countP isDeployCloudOp = 0 :=
  c4_missing_domain_no_stack_deploy wNoDomain rfl

/-- C5 counterexample: in the all-good world the certificate stack deploy is
issued to the cloud and the run succeeds, yet the run contains no bootstrap
invocation at all, refuting "a stack's deploy is never attempted unless the
region bootstrap has previously been invoked and succeeded in the same
run". -/
theorem c5_counterexample_deploy_without_bootstrap :
    (deployRun wAllGood).1.countP isBootstrapOp = 0 ∧
    Op.deployCloud certName ∈ (deployRun wAllGood).1 ∧
    (deployRun wAllGood).2 = true := by decide

/-- C5 (amended): The deploy run never invokes region bootstrap — deploy.sh
deliberately skips it — so stack deploys are attempted without any bootstrap
having been invoked in the same run. Region bootstrap is provided by the
separate bootstrap script, which, whenever it exits successfully, has
bootstrapped the default region and then us-east-1 (every region of the
plan). -/
theorem c5_deploy_never_bootstraps (w : World) (dr : String) (okD okU : Bool)
    (hboot : (bootstrapRun dr okD okU).2 = true) :
    (deployRun w).1.countP isBootstrapOp = 0 ∧
    bootstrapRun dr okD okU = ([Op.bootstrap dr, Op.bootstrap "us-east-1"], true) := by
  constructor
  · rcases deployRun_shape w with
      ⟨hb, heq⟩ | ⟨e, hr, heq⟩ | ⟨tag, hr, hs, heq⟩ | ⟨tag, hr, hs, hcd, heq⟩ |
      ⟨tag, hr, hs, hcd, hca, heq⟩ | ⟨tag, hr, hs, hcd, hca, hbd, heq⟩ |
      ⟨tag, d, hr, hs, hcd, hca, hbd, hdn, hde, hfb, heq⟩ |
      ⟨tag, d, hr, hs, hcd, hca, hbd, hdn, hde, hfb, heq⟩ <;>
      rw [heq] <;>
      simp [fullDeployTrace, isBootstrapOp]
  · cases okD with
    | false => simp [bootstrapRun] at hboot
    | true =>
      simp [bootstrapRun] at hboot ⊢
      exact hboot

/-- Witness for C5 (amended): the all-good world and a successful bootstrap
script run. -/
theorem c5_deploy_never_bootstraps_witness :
    (deployRun wAllGood).1.countP isBootstrapOp = 0 ∧
    bootstrapRun "ca-central-1" true true =
      ([Op.bootstrap "ca-central-1", Op.bootstrap "us-east-1"], true) :=
  c5_deploy_never_bootstraps wAllGood "ca-central-1" true true rfl

/-- C6 counterexample: when the certificate stack deploy fails, the backend
stack — which has no dependency on the certificate stack — is never
attempted in that run, refuting "every stack with no dependency on A is
still attempted in the same run". -/
theorem c6_counterexample_independent_stack_skipped :
    wCertFails.certDeployOk = false ∧
    deployRun wCertFails = ([Op.buildPush, Op.describeImages, Op.deployCmd certName,
      Op.deployCloud certName], false) ∧
    (deployRun wCertFails).1.contains (Op.deployCmd backendName) = false := by decide

/-- C6 (amended): When a stack's deploy fails, no stack depending directly
or transitively on it is invoked in that run — but not through dependency
tracking: the script halts at the first failure, so every stack scheduled
later is skipped, including stacks with no dependency on the failed one. -/
theorem c6_failure_halts_all_later_stacks (w : World) :
    (w.certDeployOk = false →
      (deployRun w).1.countP (isDeployCmdFor backendName) = 0 ∧
      (deployRun w).1.countP (isDeployCmdFor frontendName) = 0) ∧
    (w.backendDeployOk = false →
      (deployRun w).1.countP (isDeployCmdFor frontendName) = 0) := by
  rcases deployRun_shape w with
    ⟨hb, heq⟩ | ⟨e, hr, heq⟩ | ⟨tag, hr, hs, heq⟩ | ⟨tag, hr, hs, hcd, heq⟩ |
    ⟨tag, hr, hs, hcd, hca, heq⟩ | ⟨tag, hr, hs, hcd, hca, hbd, heq⟩ |
    ⟨tag, d, hr, hs, hcd, hca, hbd, hdn, hde, hfb, heq⟩ |
    ⟨tag, d, hr, hs, hcd, hca, hbd, hdn, hde, hfb, heq⟩
  · exact ⟨fun _ => by rw [heq]; exact ⟨by decide, by decide⟩, fun _ => by rw [heq]; decide⟩
  · exact ⟨fun _ => by rw [heq]; exact ⟨by decide, by decide⟩, fun _ => by rw [heq]; decide⟩
  · exact ⟨fun _ => by rw [heq]; exact ⟨by decide, by decide⟩, fun _ => by rw [heq]; decide⟩
  · exact ⟨fun _ => by rw [heq]; exact ⟨by decide, by decide⟩, fun _ => by rw [heq]; decide⟩
  · exact ⟨fun hx => by rw [hcd] at hx; simp at hx, fun _ => by rw [heq]; decide⟩
  · exact ⟨fun hx => by rw [hcd] at hx; simp at hx, fun _ => by rw [heq]; decide⟩
  · exact ⟨fun hx => by rw [hcd] at hx; simp at hx,
      fun hx => by rw [hbd] at hx; simp at hx⟩
  · exact ⟨fun hx => by rw [hcd] at hx; simp at hx,
      fun hx => by rw [hbd] at hx; simp at hx⟩

/-- Witness for C6 (amended): a world in which both the certificate and the
backend deploys fail. -/
theorem c6_failure_halts_all_later_stacks_witness :
    ((deployRun wBothFail).1.countP (isDeployCmdFor backendName) = 0 ∧
      (deployRun wBothFail).1.countP (isDeployCmdFor frontendName) = 0) ∧
    (deployRun wBothFail).1.countP (isDeployCmdFor frontendName) = 0 :=
  ⟨(c6_failure_halts_all_later_stacks wBothFail).1 rfl,
    (c6_failure_halts_all_later_stacks wBothFail).2 rfl⟩

/-- C8: The destroy subcommand issues stack destroys in exactly the reverse
of the recorded successful deploy order: for deploy order
[Certificate, Backend, Frontend], the destroy order is
[Frontend, Backend, Certificate], with consumers always destroyed before
their producers. -/
theorem c8_destroy_order_reverse_of_deploy (w : World) (dw : DestroyWorld)
    (hdep : (deployRun w).2 = true) (hdes : (destroyRun dw).2 = true) :
    deployedOrder w = [certName, backendName, frontendName] ∧
    destroyedOrder dw = (deployedOrder w).reverse := by
  have h1 := deployRun_success_order w hdep
  have h2 := destroyRun_success_order dw hdes
  exact ⟨h1, by rw [h1, h2]; rfl⟩

/-- Witness for C8: the all-good deploy and teardown worlds. -/
theorem c8_destroy_order_reverse_of_deploy_witness :
    deployedOrder wAllGood = [certName, backendName, frontendName] ∧
    destroyedOrder dwAllGood = (deployedOrder wAllGood).reverse :=
  c8_destroy_order_reverse_of_deploy wAllGood dwAllGood (by decide) (by decide)

/-- C10: Constructing the backend stack throws an error whenever the
RESUME_BOT_ECR_IMAGE_URI environment variable is unset, even when no deploy
is intended; consequently the teardown path must, and does, set a dummy
image URI before issuing any destroy, and a destroy invoked without that
variable fails at synthesis, before any destroy operation is issued to the
cloud. -/
theorem c10_backend_requires_image_uri :
    (∀ e : BackendEnv, e.ecrImageUri = none → ∃ err, backendCtor e = Except.error err) ∧
    (∀ w : DestroyWorld, (destroyEnv w).ecrImageUri = some dummyEcrUri) ∧
    (∀ (c : Bool) (ef : Option (List (String × String))) (dn : Option String)
        (stack : String) (ok : Bool),
      cdkOps Op.destroyCmd Op.destroyCloud (appSynth c ⟨ef, none, dn⟩) stack =
        [Op.destroyCmd stack] ∧
      cdkOk (appSynth c ⟨ef, none, dn⟩) ok = false) := by
  refine ⟨?_, fun w => rfl, ?_⟩
  · intro e he
    obtain ⟨ef, eu, dn⟩ := e
    cases eu with
    | none => exact backendCtor_error_of_no_uri ef dn
    | some u => exact absurd he (by simp)
  · intro c ef dn stack ok
    rw [appSynth_false_of_no_uri c ef dn]
    exact ⟨rfl, rfl⟩

/-- Witness for C10: the fully empty backend environment. -/
theorem c10_backend_requires_image_uri_witness :
    (backendCtor ⟨none, none, none⟩).toBool = false ∧
    cdkOk (appSynth true ⟨none, none, none⟩) true = false := by
  obtain ⟨err, herr⟩ := c10_backend_requires_image_uri.1 ⟨none, none, none⟩ rfl
  exact ⟨by rw [herr]; rfl,
    (c10_backend_requires_image_uri.2.2 true none none certName true).2⟩

end ResumeBot
